import Mathlib

/-!
# Formal model of the health-app wellbeing core

A shallow embedding of the wellbeing-scoring core of the health-app
repository, together with proofs about it.

Modelling conventions:

* JavaScript `number` arithmetic is modelled exactly: by `ℚ` where the code
  only performs field operations and comparisons, and by `ℝ` where the code
  calls `Math.sin`, `Math.cos` or `Math.sqrt`.
* Calendar dates (the `YYYY-MM-DD` strings produced by
  `toISOString().split('T')[0]`) are modelled as day numbers in `ℤ`;
  lexicographic order on ISO date strings coincides with the order of the
  corresponding day numbers, and `localeCompare`-based sorts are modelled by
  sorts over `ℤ`.
* Timestamps (`Date` values, compared and subtracted via `getTime()`) are
  modelled as milliseconds in `ℤ`; `getHours()` becomes
  `(t % 86400000) / 3600000` and the start of the calendar day containing a
  timestamp is `day * 86400000`.
* `Date.now` / `new Date()` appear as explicit `now` / `today` parameters.
-/

namespace HealthApp

/-- Sleep-duration score curve (`calculateSleepScore` in
`src/lib/wellbeingScoring.ts`). -/
def calculateSleepScore (sleepHours : ℚ) : ℚ :=
  if 8 ≤ sleepHours then 100
  else if 7.5 ≤ sleepHours then 90 + (sleepHours - 7.5) / 0.5 * 10
  else if 7 ≤ sleepHours then 80 + (sleepHours - 7) / 0.5 * 10
  else if 6 ≤ sleepHours then 60 + (sleepHours - 6) / 1 * 20
  else if 5 ≤ sleepHours then 30 + (sleepHours - 5) / 1 * 30
  else if 4 ≤ sleepHours then 10 + (sleepHours - 4) / 1 * 20
  else max 0 (sleepHours / 4 * 10)

/-- Physical-activity score curve (`calculatePhysicalActivityScore` in
`src/lib/wellbeingScoring.ts`). -/
def calculatePhysicalActivityScore (activityMinutes : ℚ) : ℚ :=
  if 30 ≤ activityMinutes then 100
  else if 20 ≤ activityMinutes then 80 + (activityMinutes - 20) / 10 * 20
  else if 15 ≤ activityMinutes then 65 + (activityMinutes - 15) / 5 * 15
  else if 10 ≤ activityMinutes then 50 + (activityMinutes - 10) / 5 * 15
  else if 5 ≤ activityMinutes then 25 + (activityMinutes - 5) / 5 * 25
  else max 0 (activityMinutes / 5 * 25)

/-- Social-interaction score curve (`calculateSocialInteractionScore` in
`src/lib/wellbeingScoring.ts`). -/
def calculateSocialInteractionScore (interactionMinutes : ℚ) : ℚ :=
  if 60 ≤ interactionMinutes then 100
  else if 45 ≤ interactionMinutes then 85 + (interactionMinutes - 45) / 15 * 15
  else if 30 ≤ interactionMinutes then 70 + (interactionMinutes - 30) / 15 * 15
  else if 20 ≤ interactionMinutes then 55 + (interactionMinutes - 20) / 10 * 15
  else if 10 ≤ interactionMinutes then 40 + (interactionMinutes - 10) / 10 * 15
  else if 5 ≤ interactionMinutes then 20 + (interactionMinutes - 5) / 5 * 20
  else max 0 (interactionMinutes / 5 * 20)

/-- Exponentially weighted moving average
(`calculateExponentiallyWeightedScore` in `src/lib/wellbeingScoring.ts`);
the source's default decay factor `alpha = 0.3` is passed explicitly by the
callers modelled here. -/
def calculateExponentiallyWeightedScore (historicalScore newDailyScore alpha : ℚ) : ℚ :=
  alpha * newDailyScore + (1 - alpha) * historicalScore

/-- Overall score from the three dimension scores (`calculateOverallScore`
in `src/lib/wellbeingScoring.ts`); polymorphic because the code applies it
both to exact update results and inside the sample-data generator. -/
def calculateOverallScore {α : Type} [Field α] (sleep physicalActivity socialInteraction : α) : α :=
  (sleep + physicalActivity + socialInteraction) / 3

/-- Raw metrics of one day (`WellbeingMetrics` interface). -/
structure WellbeingMetrics where
  sleepHours : ℚ
  physicalActivityMinutes : ℚ
  socialInteractionMinutes : ℚ
deriving DecidableEq

/-- One row of the daily score list (`DailyWellbeingScores` interface);
`date` is the day number standing for the `YYYY-MM-DD` string. -/
structure DailyWellbeingScores (α : Type) where
  date : ℤ
  sleep : α
  physicalActivity : α
  socialInteraction : α
deriving DecidableEq, Inhabited

/-- The running ("current") score (`WellbeingScore` interface). -/
structure WellbeingScore (α : Type) where
  sleep : α
  physicalActivity : α
  socialInteraction : α
  overall : α
  lastUpdated : ℤ
deriving DecidableEq, Inhabited

/-- `calculateDailyScores` in `src/lib/wellbeingScoring.ts`; the source
takes `new Date()` for the date, modelled by the `today` parameter. -/
def calculateDailyScores (today : ℤ) (metrics : WellbeingMetrics) : DailyWellbeingScores ℚ :=
  { date := today
    sleep := calculateSleepScore metrics.sleepHours
    physicalActivity := calculatePhysicalActivityScore metrics.physicalActivityMinutes
    socialInteraction := calculateSocialInteractionScore metrics.socialInteractionMinutes }

/-- Comparator used by `sort((a, b) => b.date.localeCompare(a.date))`:
`a` comes before `b` when `a`'s date is the more recent. -/
def dateGe {α : Type} (a b : DailyWellbeingScores α) : Prop :=
  b.date ≤ a.date

instance {α : Type} : DecidableRel (@dateGe α) :=
  fun a b => inferInstanceAs (Decidable (b.date ≤ a.date))

instance {α : Type} : IsTotal (DailyWellbeingScores α) dateGe :=
  ⟨fun a b => le_total b.date a.date⟩

instance {α : Type} : IsTrans (DailyWellbeingScores α) dateGe :=
  ⟨fun _ _ _ h1 h2 => le_trans h2 h1⟩

/-- The pure core of `updateScores` in the wellbeing context provider
(`src/README.md`, `WellbeingProvider`): from the stored state
(`currentScores`, `dailyScores`, `isUsingSampleData`) and today's metrics it
produces the new current score and the new daily list.  `today` is the
date key `calculateDailyScores` uses and `now` the `new Date()` stored in
`lastUpdated`. -/
def updateScores (currentScores : Option (WellbeingScore ℚ))
    (dailyScores : List (DailyWellbeingScores ℚ)) (isUsingSampleData : Bool)
    (today now : ℤ) (metrics : WellbeingMetrics) :
    WellbeingScore ℚ × List (DailyWellbeingScores ℚ) :=
  let baselineScores := if isUsingSampleData then none else currentScores
  let baselineDaily := if isUsingSampleData then [] else dailyScores
  let todayScores := calculateDailyScores today metrics
  let base : WellbeingScore ℚ :=
    match baselineScores with
    | some b =>
        { sleep := calculateExponentiallyWeightedScore b.sleep todayScores.sleep 0.3
          physicalActivity :=
            calculateExponentiallyWeightedScore b.physicalActivity todayScores.physicalActivity 0.3
          socialInteraction :=
            calculateExponentiallyWeightedScore b.socialInteraction todayScores.socialInteraction 0.3
          overall := 0
          lastUpdated := now }
    | none =>
        { sleep := todayScores.sleep
          physicalActivity := todayScores.physicalActivity
          socialInteraction := todayScores.socialInteraction
          overall := 0
          lastUpdated := now }
  let updatedScores :=
    { base with
        overall := calculateOverallScore base.sleep base.physicalActivity base.socialInteraction }
  let withToday :=
    match baselineDaily.findIdx? fun d => d.date == todayScores.date with
    | some i => baselineDaily.set i todayScores
    | none =>
        let pushed := baselineDaily ++ [todayScores]
        if 30 < pushed.length then pushed.tail else pushed
  (updatedScores, List.insertionSort dateGe withToday)

/-- Stored wellbeing state of the provider, as read and written by the
periodic update in `useWellbeingDataCollection` (src/unnamed/part_004). -/
structure WellbeingStore where
  currentScores : Option (WellbeingScore ℚ)
  dailyScores : List (DailyWellbeingScores ℚ)
  isUsingSampleData : Bool
deriving DecidableEq

/-- One firing of `updateWellbeingScores` in `useWellbeingDataCollection`
(src/unnamed/part_004 lines 71-93): the metrics snapshot is committed
through `updateScores` only when at least one of the three raw metrics is
strictly positive; otherwise the stored state is left untouched. -/
def updateWellbeingScores (st : WellbeingStore) (today now : ℤ)
    (metrics : WellbeingMetrics) : WellbeingStore :=
  if 0 < metrics.sleepHours ∨ 0 < metrics.physicalActivityMinutes ∨
      0 < metrics.socialInteractionMinutes then
    let r := updateScores st.currentScores st.dailyScores st.isUsingSampleData today now metrics
    { currentScores := some r.1, dailyScores := r.2, isUsingSampleData := false }
  else st

/-- A full stored daily list: 30 entries, dates `30, 29, …, 1`
(newest first), all scores `0`. -/
def c2Baseline : List (DailyWellbeingScores ℚ) :=
  (List.range 30).map fun i => ⟨30 - (i : ℤ), 0, 0, 0⟩

/-- Activity labels (`ActivityData.activity` union type). -/
inductive ActivityKind where
  | stationary
  | walking
  | running
  | cycling
  | sleeping
  | unknown
deriving DecidableEq

/-- One classified activity event (`ActivityData` in
`src/lib/wellbeingScoring.ts`; the aggregator's `ActivityStatus` has the
same fields).  `timestamp` is in milliseconds. -/
structure ActivityData where
  timestamp : ℤ
  activity : ActivityKind
  confidence : ℚ
deriving DecidableEq

/-- Conversation states (`ConversationState` union type). -/
inductive ConversationState where
  | silent
  | talking
  | conversation
deriving DecidableEq

/-- One conversation event (`ConversationData`; the aggregator's
`ConversationStatus` has the same fields).  `duration` is in seconds. -/
structure ConversationData where
  timestamp : ℤ
  state : ConversationState
  duration : ℚ
deriving DecidableEq

/-- Milliseconds per day. -/
def msPerDay : ℤ := 86400000

/-- Milliseconds per hour. -/
def msPerHour : ℤ := 3600000

/-- `getHours()` of a millisecond timestamp on the local clock. -/
def hourOfTimestamp (t : ℤ) : ℤ :=
  t % msPerDay / msPerHour

/-- The day filter shared by the three metric extractors: `dayStart` is the
day at `00:00:00.000` and `dayEnd` the same day at `23:59:59.999`, both
inclusive. -/
def inCalendarDay (day t : ℤ) : Bool :=
  decide (day * msPerDay ≤ t ∧ t ≤ day * msPerDay + (msPerDay - 1))

/-- The consecutive-pair walk of `calculateSleepHoursFromActivities`
(`for i in 0 .. length-2`): a `sleeping` event with confidence `≥ 0.7·100`
at a night hour (`hour ≥ 21 ∨ hour ≤ 8`) contributes the seconds up to the
next event; the last event contributes nothing. -/
def sleepSecondsFromPairs : List ActivityData → ℚ
  | current :: next :: rest =>
      (if current.activity = ActivityKind.sleeping ∧ 70 ≤ current.confidence ∧
          (21 ≤ hourOfTimestamp current.timestamp ∨ hourOfTimestamp current.timestamp ≤ 8) then
        ((next.timestamp - current.timestamp : ℤ) : ℚ) / 1000
      else 0) + sleepSecondsFromPairs (next :: rest)
  | _ => 0

/-- `calculateSleepHoursFromActivities` in `src/lib/wellbeingScoring.ts`:
filter the events to the given calendar day, sum qualifying pair gaps in
seconds, convert to hours. -/
def calculateSleepHoursFromActivities (activities : List ActivityData) (date : ℤ) : ℚ :=
  sleepSecondsFromPairs (activities.filter fun a => inCalendarDay date a.timestamp) / 3600

/-- The consecutive-pair walk of
`calculatePhysicalActivityMinutesFromActivities`: walking, running and
cycling events with confidence `≥ 0.6·100` contribute their gap, weighted
`1.5` for running and `1.3` for cycling. -/
def activitySecondsFromPairs : List ActivityData → ℚ
  | current :: next :: rest =>
      (if (current.activity = ActivityKind.walking ∨ current.activity = ActivityKind.running ∨
          current.activity = ActivityKind.cycling) ∧ 60 ≤ current.confidence then
        (if current.activity = ActivityKind.running then
          ((next.timestamp - current.timestamp : ℤ) : ℚ) / 1000 * 1.5
        else if current.activity = ActivityKind.cycling then
          ((next.timestamp - current.timestamp : ℤ) : ℚ) / 1000 * 1.3
        else ((next.timestamp - current.timestamp : ℤ) : ℚ) / 1000)
      else 0) + activitySecondsFromPairs (next :: rest)
  | _ => 0

/-- `calculatePhysicalActivityMinutesFromActivities` in
`src/lib/wellbeingScoring.ts`. -/
def calculatePhysicalActivityMinutesFromActivities
    (activities : List ActivityData) (date : ℤ) : ℚ :=
  activitySecondsFromPairs (activities.filter fun a => inCalendarDay date a.timestamp) / 60

/-- `calculateSocialInteractionMinutesFromConversations` in
`src/lib/wellbeingScoring.ts`: sum the stored durations of `talking` and
`conversation` events of the day, convert to minutes. -/
def calculateSocialInteractionMinutesFromConversations
    (conversations : List ConversationData) (date : ℤ) : ℚ :=
  ((conversations.filter fun c => inCalendarDay date c.timestamp).foldr
    (fun c acc =>
      (if c.state = ConversationState.talking ∨ c.state = ConversationState.conversation then
        c.duration
      else 0) + acc) 0) / 60

/-- The event aggregator's state (`WellbeingAggregator` in
src/unnamed/part_005): bounded histories of activity and conversation
events. -/
structure AggregatorState where
  activityHistory : List ActivityData
  conversationHistory : List ConversationData
deriving DecidableEq

/-- `MAX_HISTORY_DAYS` of the aggregator. -/
def MAX_HISTORY_DAYS : ℤ := 7

/-- `WellbeingAggregator.addActivity`: push the event, then keep only
entries whose timestamp is at least `now` minus seven days. -/
def addActivity (st : AggregatorState) (a : ActivityData) (now : ℤ) : AggregatorState :=
  { st with activityHistory :=
      (st.activityHistory ++ [a]).filter fun x =>
        decide (now - MAX_HISTORY_DAYS * msPerDay ≤ x.timestamp) }

/-- `WellbeingAggregator.addConversation`: same pruning for conversation
events. -/
def addConversation (st : AggregatorState) (c : ConversationData) (now : ℤ) : AggregatorState :=
  { st with conversationHistory :=
      (st.conversationHistory ++ [c]).filter fun x =>
        decide (now - MAX_HISTORY_DAYS * msPerDay ≤ x.timestamp) }

/-- `WellbeingAggregator.getActivityHistory` (returns a copy of the stored
list; no pruning happens on read). -/
def getActivityHistory (st : AggregatorState) : List ActivityData :=
  st.activityHistory

/-- `WellbeingAggregator.getConversationHistory`. -/
def getConversationHistory (st : AggregatorState) : List ConversationData :=
  st.conversationHistory

/-- `WellbeingAggregator.calculateTodayMetrics` (no pruning happens on this
read either; `today` is the `new Date()` of the call). -/
def calculateTodayMetrics (st : AggregatorState) (today : ℤ) : WellbeingMetrics :=
  { sleepHours := calculateSleepHoursFromActivities st.activityHistory today
    physicalActivityMinutes :=
      calculatePhysicalActivityMinutesFromActivities st.activityHistory today
    socialInteractionMinutes :=
      calculateSocialInteractionMinutesFromConversations st.conversationHistory today }

/-- JS `Array.prototype.slice(-n)`: the last `n` elements (all of them when
the list is shorter). -/
def lastN {β : Type} (n : ℕ) (l : List β) : List β :=
  l.drop (l.length - n)

/-- `reduce((a, b) => a + b, 0) / length`.  (On the empty list this is
`0 / 0 = 0`, matching no caller: the sources guard the length first.) -/
noncomputable def listMean (l : List ℝ) : ℝ :=
  l.sum / l.length

/-- `Math.sqrt` of `reduce((sum, val) => sum + (val − mean)², 0) / length`. -/
noncomputable def listStd (l : List ℝ) : ℝ :=
  Real.sqrt ((l.map fun v => (v - listMean l) ^ 2).sum / l.length)

/-- `classifyActivity` in `src/app/login.tsx` (lines 879-931): from the
acceleration-magnitude window, the speed window, the GPS accuracy and the
running inactivity counter it produces the activity label, its confidence,
and the new value of the inactivity counter; `none` models the early
`return` when fewer than 10 acceleration samples are available (no new
classification, counter untouched).  The rules appear in source order;
the first matching rule wins. -/
noncomputable def classifyActivity (accelHistory speedHistory : List ℝ) (gpsAccuracy : ℝ)
    (inactiveTime : ℤ) : Option (ActivityKind × ℝ × ℤ) :=
  let recentAccel := lastN 30 accelHistory
  if recentAccel.length < 10 then none
  else
    let recentSpeed := lastN 10 speedHistory
    let accelMean := listMean recentAccel
    let accelStd := listStd recentAccel
    let speedMean := if 0 < recentSpeed.length then listMean recentSpeed else 0
    let deviationFromGravity := |accelMean - 1|
    if accelStd < 0.05 ∧ speedMean < 0.3 ∧ deviationFromGravity < 0.1 then
      some (ActivityKind.stationary, min 95 (80 + (1 - accelStd * 10) * 15), inactiveTime + 1)
    else if (0.05 ≤ accelStd ∧ accelStd < 0.4 ∧ 0.3 ≤ speedMean ∧ speedMean < 2.5) ∨
        (0.1 ≤ deviationFromGravity ∧ 0.3 ≤ speedMean ∧ speedMean < 2.5) then
      some (ActivityKind.walking, min 92 (65 + accelStd * 60), 0)
    else if (0.4 ≤ accelStd ∧ 2 ≤ speedMean) ∨ (2.5 ≤ speedMean ∧ speedMean < 7) then
      some (ActivityKind.running, min 95 (75 + min accelStd 1 * 20), 0)
    else if 3.5 ≤ speedMean ∧ speedMean < 12 ∧ accelStd < 0.4 then
      some (ActivityKind.cycling, min 88 (65 + speedMean / 12 * 23), 0)
    else if 0.05 ≤ accelStd ∧ accelStd < 0.5 ∧ speedMean < 0.3 ∧ 20 < gpsAccuracy then
      some (ActivityKind.walking, min 75 (50 + accelStd * 50), 0)
    else if accelStd < 0.03 ∧ speedMean < 0.2 ∧ 30 < inactiveTime then
      some (ActivityKind.sleeping,
        min 90 (60 + min ((inactiveTime : ℝ) / 120) 1 * 30), inactiveTime)
    else if speedMean < 0.3 then
      some (ActivityKind.stationary, 55, inactiveTime + 1)
    else
      some (ActivityKind.unknown, 35, 0)

/-- `detectConversation` in `src/app/login.tsx` (lines 933-950): `none`
models the early return below 20 audio samples. -/
noncomputable def detectConversation (audioHistory : List ℝ) : Option ConversationState :=
  let recentAudio := lastN 50 audioHistory
  if recentAudio.length < 20 then none
  else
    let audioMean := listMean recentAudio
    let peakRate :=
      (((recentAudio.filter fun level => audioMean + 8 < level).length : ℝ)) / recentAudio.length
    let audioStd := listStd recentAudio
    if audioMean < 12 then some ConversationState.silent
    else if 12 ≤ audioMean ∧ audioMean < 30 then
      some (if peakRate < 0.25 then ConversationState.silent else ConversationState.talking)
    else if 30 ≤ audioMean ∧ audioMean < 45 then some ConversationState.talking
    else if 45 ≤ audioMean ∨ (0.35 ≤ peakRate ∧ 12 < audioStd) then
      some ConversationState.conversation
    else some ConversationState.talking

/-- The acceleration window of the spec's stationary example: ten samples
with mean `1.05`, standard deviation exactly `0.02`, deviation from gravity
`0.05`. -/
noncomputable def c9Accel : List ℝ :=
  [1.03, 1.03, 1.03, 1.03, 1.03, 1.07, 1.07, 1.07, 1.07, 1.07]

/-- The speed window of the spec's stationary example: mean `0.1`. -/
noncomputable def c9Speed : List ℝ :=
  List.replicate 10 0.1

/-- `Number(x.toFixed(1))`: the value rounded to one decimal place
(`round` is Lean's round-half-up, matching `toFixed` away from ties). -/
noncomputable def roundTo1 (x : ℝ) : ℝ :=
  (round (10 * x) : ℤ) / 10

/-- The `clamp` helper of `src/lib/wellbeingScoring.ts`:
`Math.min(Math.max(value, min), max)`. -/
noncomputable def clamp (value lo hi : ℝ) : ℝ :=
  min (max value lo) hi

/-- One loop iteration of `generateSampleWellbeingData`: day `i` back from
`today`, with sine/cosine variations around the three base values, clamped
and rounded to one decimal. -/
noncomputable def sampleDailyScore (today : ℤ) (i : ℕ) : DailyWellbeingScores ℝ :=
  { date := today - i
    sleep := roundTo1 (clamp (85 + Real.sin (((i : ℝ) + 1) * 0.6) * 8) 70 98)
    physicalActivity := roundTo1 (clamp (78 + Real.cos (((i : ℝ) + 1) * 0.4) * 10) 60 95)
    socialInteraction := roundTo1 (clamp (72 + Real.sin (((i : ℝ) + 2) * 0.7) * 12) 55 92) }

/-- `generateSampleWellbeingData` in `src/lib/wellbeingScoring.ts`: build
the per-day list, sort it newest-first, and build the current score from
`dailyScores[0]` (modelled by `headI`; every call site passes `days ≥ 1`).
The `overall` field is `calculateOverallScore` of the latest day's rounded
dimensions, itself rounded via `toFixed(1)`. -/
noncomputable def generateSampleWellbeingData (today : ℤ) (days : ℕ) :
    List (DailyWellbeingScores ℝ) × WellbeingScore ℝ :=
  let dailyScores := (List.range days).map (sampleDailyScore today)
  let sorted := List.insertionSort dateGe dailyScores
  let latest := sorted.headI
  (sorted,
    { sleep := latest.sleep
      physicalActivity := latest.physicalActivity
      socialInteraction := latest.socialInteraction
      overall := roundTo1 (calculateOverallScore latest.sleep latest.physicalActivity
          latest.socialInteraction)
      lastUpdated := today })

lemma calculateSleepScore_bounds (x : ℚ) :
    0 ≤ calculateSleepScore x ∧ calculateSleepScore x ≤ 100 := by
  unfold calculateSleepScore
  norm_num
  split_ifs <;>
    refine ⟨?_, ?_⟩ <;>
      first
        | linarith
        | exact le_max_left 0 _
        | exact max_le (by norm_num) (by linarith)

set_option maxHeartbeats 1600000 in
lemma calculateSleepScore_mono {x y : ℚ} (hxy : x ≤ y) :
    calculateSleepScore x ≤ calculateSleepScore y := by
  unfold calculateSleepScore
  norm_num
  split_ifs <;>
    first
      | linarith
      | (exfalso; linarith)
      | exact max_le_max le_rfl (by linarith)
      | exact max_le (by linarith) (by linarith)

lemma calculatePhysicalActivityScore_bounds (x : ℚ) :
    0 ≤ calculatePhysicalActivityScore x ∧ calculatePhysicalActivityScore x ≤ 100 := by
  unfold calculatePhysicalActivityScore
  norm_num
  split_ifs <;>
    refine ⟨?_, ?_⟩ <;>
      first
        | linarith
        | exact le_max_left 0 _
        | exact max_le (by norm_num) (by linarith)

set_option maxHeartbeats 1600000 in
lemma calculatePhysicalActivityScore_mono {x y : ℚ} (hxy : x ≤ y) :
    calculatePhysicalActivityScore x ≤ calculatePhysicalActivityScore y := by
  unfold calculatePhysicalActivityScore
  norm_num
  split_ifs <;>
    first
      | linarith
      | (exfalso; linarith)
      | exact max_le_max le_rfl (by linarith)
      | exact max_le (by linarith) (by linarith)

lemma calculateSocialInteractionScore_bounds (x : ℚ) :
    0 ≤ calculateSocialInteractionScore x ∧ calculateSocialInteractionScore x ≤ 100 := by
  unfold calculateSocialInteractionScore
  norm_num
  split_ifs <;>
    refine ⟨?_, ?_⟩ <;>
      first
        | linarith
        | exact le_max_left 0 _
        | exact max_le (by norm_num) (by linarith)

set_option maxHeartbeats 1600000 in
lemma calculateSocialInteractionScore_mono {x y : ℚ} (hxy : x ≤ y) :
    calculateSocialInteractionScore x ≤ calculateSocialInteractionScore y := by
  unfold calculateSocialInteractionScore
  norm_num
  split_ifs <;>
    first
      | linarith
      | (exfalso; linarith)
      | exact max_le_max le_rfl (by linarith)
      | exact max_le (by linarith) (by linarith)

/-- C4: each of the three piecewise-linear score curves stays in `[0, 100]`
on every input, is monotone non-decreasing, vanishes at `0`, and attains
`100` at its guideline anchor (8 h sleep, 30 min activity, 60 min social
interaction). -/
theorem scoreCurves_bounded_monotone_anchors :
    (∀ x : ℚ, 0 ≤ calculateSleepScore x ∧ calculateSleepScore x ≤ 100) ∧
    (∀ x : ℚ, 0 ≤ calculatePhysicalActivityScore x ∧ calculatePhysicalActivityScore x ≤ 100) ∧
    (∀ x : ℚ, 0 ≤ calculateSocialInteractionScore x ∧ calculateSocialInteractionScore x ≤ 100) ∧
    (∀ x y : ℚ, x ≤ y → calculateSleepScore x ≤ calculateSleepScore y) ∧
    (∀ x y : ℚ, x ≤ y → calculatePhysicalActivityScore x ≤ calculatePhysicalActivityScore y) ∧
    (∀ x y : ℚ, x ≤ y → calculateSocialInteractionScore x ≤ calculateSocialInteractionScore y) ∧
    calculateSleepScore 0 = 0 ∧ calculateSleepScore 8 = 100 ∧
    calculatePhysicalActivityScore 0 = 0 ∧ calculatePhysicalActivityScore 30 = 100 ∧
    calculateSocialInteractionScore 0 = 0 ∧ calculateSocialInteractionScore 60 = 100 :=
  ⟨calculateSleepScore_bounds, calculatePhysicalActivityScore_bounds,
    calculateSocialInteractionScore_bounds,
    fun _ _ h => calculateSleepScore_mono h,
    fun _ _ h => calculatePhysicalActivityScore_mono h,
    fun _ _ h => calculateSocialInteractionScore_mono h,
    by norm_num [calculateSleepScore], by norm_num [calculateSleepScore],
    by norm_num [calculatePhysicalActivityScore], by norm_num [calculatePhysicalActivityScore],
    by norm_num [calculateSocialInteractionScore], by norm_num [calculateSocialInteractionScore]⟩

/-- Witness for C4: monotonicity applied at the concrete pair
`3 ≤ 5` of sleep-hour inputs, next to directly evaluated endpoints. -/
theorem scoreCurves_witness :
    calculateSleepScore 3 ≤ calculateSleepScore 5 ∧ 0 ≤ calculatePhysicalActivityScore 12 :=
  ⟨scoreCurves_bounded_monotone_anchors.2.2.2.1 3 5 (by norm_num),
    (scoreCurves_bounded_monotone_anchors.2.1 12).1⟩

/-- C3: daily-to-running smoothing.  With a previous score the new current
score is `0.3·today + 0.7·previous` in each dimension separately; with no
previous score (first-ever computation) it is today's score directly; and
the smoothing formula sends previous `50`, today `80` to exactly `59`. -/
theorem updateScores_smoothing :
    (∀ (b : WellbeingScore ℚ) (daily : List (DailyWellbeingScores ℚ)) (today now : ℤ)
        (m : WellbeingMetrics),
      (updateScores (some b) daily false today now m).1.sleep
          = 0.3 * (calculateDailyScores today m).sleep + 0.7 * b.sleep ∧
      (updateScores (some b) daily false today now m).1.physicalActivity
          = 0.3 * (calculateDailyScores today m).physicalActivity + 0.7 * b.physicalActivity ∧
      (updateScores (some b) daily false today now m).1.socialInteraction
          = 0.3 * (calculateDailyScores today m).socialInteraction + 0.7 * b.socialInteraction) ∧
    (∀ (daily : List (DailyWellbeingScores ℚ)) (today now : ℤ) (m : WellbeingMetrics),
      (updateScores none daily false today now m).1.sleep
          = (calculateDailyScores today m).sleep ∧
      (updateScores none daily false today now m).1.physicalActivity
          = (calculateDailyScores today m).physicalActivity ∧
      (updateScores none daily false today now m).1.socialInteraction
          = (calculateDailyScores today m).socialInteraction) ∧
    calculateExponentiallyWeightedScore 50 80 0.3 = 59 := by
  refine ⟨fun b daily today now m => ?_, fun daily today now m => ?_, by
    norm_num [calculateExponentiallyWeightedScore]⟩
  · refine ⟨?_, ?_, ?_⟩ <;>
      · simp only [updateScores, calculateExponentiallyWeightedScore]
        norm_num
  · refine ⟨?_, ?_, ?_⟩ <;> simp [updateScores]

/-- Helper for C1: in both branches of `updateScores` the `overall` field is
set from the final dimension fields by `calculateOverallScore`. -/
lemma updateScores_overall_eq (cs : Option (WellbeingScore ℚ))
    (daily : List (DailyWellbeingScores ℚ)) (flag : Bool) (today now : ℤ)
    (m : WellbeingMetrics) :
    (updateScores cs daily flag today now m).1.overall
      = calculateOverallScore (updateScores cs daily flag today now m).1.sleep
          (updateScores cs daily flag today now m).1.physicalActivity
          (updateScores cs daily flag today now m).1.socialInteraction := by
  cases flag <;> cases cs <;> simp [updateScores]

/-- C5: the periodic wellbeing update commits a score update only when at
least one raw daily metric is strictly positive; an all-zero metrics
snapshot is discarded and the stored scores stay exactly as they were. -/
theorem updateWellbeingScores_zero_discarded (st : WellbeingStore) (today now : ℤ)
    (metrics : WellbeingMetrics) :
    (metrics = ⟨0, 0, 0⟩ → updateWellbeingScores st today now metrics = st) ∧
    (updateWellbeingScores st today now metrics ≠ st →
      0 < metrics.sleepHours ∨ 0 < metrics.physicalActivityMinutes ∨
        0 < metrics.socialInteractionMinutes) := by
  constructor
  · rintro rfl
    simp [updateWellbeingScores]
  · intro h
    by_contra hpos
    exact h (by simp [updateWellbeingScores, hpos])

/-- Witness for C5 at a concrete store and the all-zero metrics snapshot:
the state survives unchanged. -/
theorem updateWellbeingScores_zero_discarded_witness :
    updateWellbeingScores ⟨none, [], false⟩ 20000 20000 ⟨0, 0, 0⟩ = ⟨none, [], false⟩ :=
  (updateWellbeingScores_zero_discarded ⟨none, [], false⟩ 20000 20000 ⟨0, 0, 0⟩).1 rfl

/-- The daily-list component of `updateScores`, written out for reasoning. -/
lemma updateScores_daily_eq (cs : Option (WellbeingScore ℚ))
    (daily : List (DailyWellbeingScores ℚ)) (today now : ℤ) (m : WellbeingMetrics) :
    (updateScores cs daily false today now m).2
      = List.insertionSort dateGe
          (match daily.findIdx? fun d => d.date == today with
            | some i => daily.set i (calculateDailyScores today m)
            | none =>
                if 30 < (daily ++ [calculateDailyScores today m]).length then
                  (daily ++ [calculateDailyScores today m]).tail
                else daily ++ [calculateDailyScores today m]) := by
  cases cs <;> simp [updateScores, calculateDailyScores]

/-- `l.set i v` is `l` itself when position `i` already holds `v`. -/
lemma set_self_of_getElem? {β : Type} (l : List β) (i : ℕ) (v : β) (h : l[i]? = some v) :
    l.set i v = l := by
  induction l generalizing i with
  | nil => simp at h
  | cons a l ih =>
    cases i with
    | zero =>
      simp only [List.getElem?_cons_zero, Option.some.injEq] at h
      simp [h]
    | succ n =>
      simp only [List.getElem?_cons_succ] at h
      simp [ih n h]

/-- Sorting with `dateGe` and duplicate-free dates yields a strictly
descending date order. -/
lemma insertionSort_strict_of_nodup (W : List (DailyWellbeingScores ℚ))
    (hnd : (W.map fun d => d.date).Nodup) :
    (List.insertionSort dateGe W).Pairwise fun a b => b.date < a.date := by
  have hperm : (List.insertionSort dateGe W).Perm W := List.perm_insertionSort dateGe W
  have hsorted : (List.insertionSort dateGe W).Pairwise dateGe :=
    List.sorted_insertionSort dateGe W
  have hle : ((List.insertionSort dateGe W).map fun d => d.date).Pairwise
      fun a b : ℤ => b ≤ a :=
    List.pairwise_map.mpr (hsorted.imp fun h => h)
  have hnd2 : ((List.insertionSort dateGe W).map fun d => d.date).Nodup :=
    ((hperm.map fun d => d.date).nodup_iff).mpr hnd
  have hne : ((List.insertionSort dateGe W).map fun d => d.date).Pairwise
      fun a b : ℤ => a ≠ b := hnd2
  have hstrict : ((List.insertionSort dateGe W).map fun d => d.date).Pairwise
      fun a b : ℤ => b < a :=
    (hle.and hne).imp fun h => lt_of_le_of_ne h.1 (Ne.symm h.2)
  exact List.pairwise_map.mp hstrict

/-- Strictly descending dates are duplicate-free. -/
lemma nodup_dates_of_strict {daily : List (DailyWellbeingScores ℚ)}
    (hsorted : daily.Pairwise fun a b => b.date < a.date) :
    (daily.map fun d => d.date).Nodup :=
  List.pairwise_map.mpr (hsorted.imp fun h => ne_of_gt h)

/-- C2 (amended): after `updateScores` the daily list is strictly descending
by date (hence sorted newest-first with at most one entry per date) and has
at most 30 entries; but when the 30-entry cap is exceeded the entry dropped
is the *first* element of the stored newest-first list — the most recent
previous day — so the retained entries are today plus the 29 *oldest*
previous entries. -/
theorem updateScores_daily_spec (cs : Option (WellbeingScore ℚ))
    (daily : List (DailyWellbeingScores ℚ)) (today now : ℤ) (m : WellbeingMetrics)
    (hsorted : daily.Pairwise fun a b => b.date < a.date)
    (hlen : daily.length ≤ 30) :
    ((updateScores cs daily false today now m).2.Pairwise fun a b => b.date < a.date) ∧
    (updateScores cs daily false today now m).2.length ≤ 30 ∧
    (daily.length = 30 → (∀ d ∈ daily, d.date ≠ today) →
      (updateScores cs daily false today now m).2.Perm
        (calculateDailyScores today m :: daily.tail)) := by
  have hnd : (daily.map fun d => d.date).Nodup := nodup_dates_of_strict hsorted
  rw [updateScores_daily_eq]
  rcases hfind : daily.findIdx? fun d => d.date == today with _ | i
  · -- no entry for today's date yet: push, maybe drop the head, sort
    have hnotin : ∀ x ∈ daily, x.date ≠ today := by
      intro x hx
      have := List.findIdx?_eq_none_iff.mp hfind x hx
      simpa using this
    have htoday_notin : today ∉ daily.map fun d => d.date := by
      intro hmem
      obtain ⟨x, hx, hxd⟩ := List.mem_map.mp hmem
      exact hnotin x hx hxd
    simp only [hfind]
    split_ifs with hcap
    · -- cap exceeded: `shift()` removes the first (newest) stored entry
      have h30 : daily.length = 30 := by
        simp only [List.length_append, List.length_cons, List.length_nil] at hcap
        omega
      cases daily with
      | nil => simp at h30
      | cons d0 rest =>
        simp only [List.cons_append, List.tail_cons]
        have hndrest : ((rest ++ [calculateDailyScores today m]).map fun d => d.date).Nodup := by
          have hpermd : ((rest ++ [calculateDailyScores today m]).map fun d => d.date).Perm
              (today :: (rest.map fun d => d.date)) := by
            simpa [calculateDailyScores] using
              (List.perm_append_singleton (calculateDailyScores today m) rest).map
                fun d => d.date
          rw [hpermd.nodup_iff]
          refine List.nodup_cons.mpr ⟨?_, ?_⟩
          · intro hmem
            refine htoday_notin ?_
            simp only [List.map_cons, List.mem_cons]
            exact Or.inr hmem
          · exact (List.nodup_cons.mp (by simpa using hnd)).2
        refine ⟨insertionSort_strict_of_nodup _ hndrest, ?_, ?_⟩
        · rw [List.length_insertionSort]
          simp only [List.length_cons] at h30
          simp only [List.length_append, List.length_cons, List.length_nil]
          omega
        · intro _ _
          refine ((List.perm_insertionSort dateGe _).trans ?_)
          simpa using List.perm_append_singleton (calculateDailyScores today m) rest
    · -- still under the cap: simply append today's entry
      have hndapp : ((daily ++ [calculateDailyScores today m]).map fun d => d.date).Nodup := by
        have hpermd : ((daily ++ [calculateDailyScores today m]).map fun d => d.date).Perm
            (today :: (daily.map fun d => d.date)) := by
          simpa [calculateDailyScores] using
            (List.perm_append_singleton (calculateDailyScores today m) daily).map
              fun d => d.date
        rw [hpermd.nodup_iff]
        exact List.nodup_cons.mpr ⟨htoday_notin, hnd⟩
      refine ⟨insertionSort_strict_of_nodup _ hndapp, ?_, ?_⟩
      · rw [List.length_insertionSort]
        simp only [List.length_append, List.length_cons, List.length_nil] at hcap ⊢
        omega
      · intro h30 _
        exfalso
        simp only [List.length_append, List.length_cons, List.length_nil] at hcap
        omega
  · -- an entry with today's date exists: it is replaced in place
    obtain ⟨hi, hpi, -⟩ := List.findIdx?_eq_some_iff_getElem.mp hfind
    have hdate : daily[i].date = today := by simpa using hpi
    simp only [hfind]
    have hdates_eq : ((daily.set i (calculateDailyScores today m)).map fun d => d.date)
        = daily.map fun d => d.date := by
      rw [List.map_set]
      apply set_self_of_getElem?
      simp [calculateDailyScores, List.getElem?_eq_getElem hi, hdate]
    have hndset : ((daily.set i (calculateDailyScores today m)).map fun d => d.date).Nodup := by
      rw [hdates_eq]; exact hnd
    refine ⟨insertionSort_strict_of_nodup _ hndset, ?_, ?_⟩
    · rw [List.length_insertionSort, List.length_set]
      exact hlen
    · intro _ hnotin
      exact absurd hdate (hnotin daily[i] (List.getElem_mem hi))

/-- Counterexample for C2 as stated: starting from the full newest-first
list with dates `30 … 1` and updating on day `31`, the claim would retain
the 30 most recent dates `{31, 30, …, 2}`; the code instead drops date `30`
(the first, most recent stored entry) and keeps date `1` (the oldest). -/
theorem c2_oldest_not_dropped :
    (((updateScores none c2Baseline false 31 0 ⟨0, 0, 0⟩).2.map fun d => d.date).contains 30
        = false) ∧
    (((updateScores none c2Baseline false 31 0 ⟨0, 0, 0⟩).2.map fun d => d.date).contains 1
        = true) := by decide

/-- Witness for C2's amended theorem on the concrete full list: all
hypotheses discharged by computation, including the cap-exceeded clause. -/
theorem updateScores_daily_spec_witness :
    ((updateScores none c2Baseline false 31 0 ⟨0, 0, 0⟩).2.Pairwise
        fun a b => b.date < a.date) ∧
    (updateScores none c2Baseline false 31 0 ⟨0, 0, 0⟩).2.length ≤ 30 ∧
    (updateScores none c2Baseline false 31 0 ⟨0, 0, 0⟩).2.Perm
      (calculateDailyScores 31 ⟨0, 0, 0⟩ :: c2Baseline.tail) := by
  have h := updateScores_daily_spec none c2Baseline 31 0 ⟨0, 0, 0⟩ (by decide) (by decide)
  exact ⟨h.1, h.2.1, h.2.2 (by decide) (by decide)⟩

/-- C6 (amended): for the spec's cross-midnight example — a `sleeping`
event at 23:00 of day 1 with confidence 90 followed by a `walking` event at
06:00 of day 2 with confidence 80 — the function returns `0`, not `7`: the
06:00 event belongs to the next calendar day and is removed by the day
filter, and the one remaining event has no successor to bound its duration.
When both events fall inside the filtered day the gap *is* counted: the
same pair moved to 01:00/06:00 of day 2 yields 5 hours. -/
theorem sleepHours_crossMidnight_example :
    calculateSleepHoursFromActivities
        [⟨169200000, ActivityKind.sleeping, 90⟩, ⟨194400000, ActivityKind.walking, 80⟩] 1 = 0 ∧
    calculateSleepHoursFromActivities
        [⟨176400000, ActivityKind.sleeping, 90⟩, ⟨194400000, ActivityKind.walking, 80⟩] 2 = 5 := by
  constructor <;>
    norm_num [calculateSleepHoursFromActivities, sleepSecondsFromPairs, inCalendarDay,
      hourOfTimestamp, msPerDay, msPerHour, List.filter_cons]

/-- Counterexample for C6 as stated: the spec's example events yield `0`
sleep hours, not `7`. -/
theorem c6_sleepHours_not_seven :
    calculateSleepHoursFromActivities
        [⟨169200000, ActivityKind.sleeping, 90⟩, ⟨194400000, ActivityKind.walking, 80⟩] 1 ≠ 7 := by
  norm_num [calculateSleepHoursFromActivities, sleepSecondsFromPairs, inCalendarDay,
    hourOfTimestamp, msPerDay, msPerHour, List.filter_cons]

/-- C8 (amended): pruning happens at *add* time — right after `addActivity`
or `addConversation` at time `now`, every stored entry is at most seven
days old relative to `now`.  (A read performed later, with no intervening
add, can still see entries older than seven days relative to the read
time.) -/
theorem aggregator_prunes_on_add (st : AggregatorState) (a : ActivityData)
    (c : ConversationData) (now : ℤ) :
    (∀ x ∈ (addActivity st a now).activityHistory,
      now - MAX_HISTORY_DAYS * msPerDay ≤ x.timestamp) ∧
    (∀ x ∈ (addConversation st c now).conversationHistory,
      now - MAX_HISTORY_DAYS * msPerDay ≤ x.timestamp) := by
  constructor <;>
    · intro x hx
      simp only [addActivity, addConversation, List.mem_filter] at hx
      exact of_decide_eq_true hx.2

/-- Witness for C8's amended theorem: after adding an event with timestamp
`0` at time `0`, that entry satisfies the seven-day bound relative to the
add time. -/
theorem aggregator_prunes_on_add_witness :
    (0 : ℤ) - MAX_HISTORY_DAYS * msPerDay ≤ (0 : ℤ) :=
  (aggregator_prunes_on_add ⟨[], []⟩ ⟨0, ActivityKind.stationary, 90⟩
      ⟨0, ConversationState.silent, 10⟩ 0).1 ⟨0, ActivityKind.stationary, 90⟩ (by decide)

/-- Counterexample for C8 as stated: the entry added at time `0` is still
in the history at a read eight days later, although it is then older than
seven days before the read time — reads do not prune. -/
theorem c8_stale_read :
    ¬ (∀ x ∈ getActivityHistory (addActivity ⟨[], []⟩ ⟨0, ActivityKind.stationary, 90⟩ 0),
        8 * msPerDay - MAX_HISTORY_DAYS * msPerDay ≤ x.timestamp) := by
  decide

set_option maxHeartbeats 1600000 in
/-- C7 (amended): whenever `classifyActivity` emits a classification, the
inactivity counter is incremented by the two stationary rules, *left
unchanged* by the sleeping rule, and reset to zero by the walking, running
and cycling rules and by the unknown fallback. -/
theorem classifyActivity_inactivity (accel speed : List ℝ) (gps : ℝ) (inactive : ℤ)
    (a : ActivityKind) (c : ℝ) (i2 : ℤ)
    (h : classifyActivity accel speed gps inactive = some (a, c, i2)) :
    (a = ActivityKind.stationary → i2 = inactive + 1) ∧
    (a = ActivityKind.walking ∨ a = ActivityKind.running ∨ a = ActivityKind.cycling →
      i2 = 0) ∧
    (a = ActivityKind.sleeping → i2 = inactive) ∧
    (a = ActivityKind.unknown → i2 = 0) := by
  simp only [classifyActivity] at h
  split_ifs at h <;>
    first
      | exact Option.noConfusion h
      | (simp only [Option.some.injEq, Prod.mk.injEq] at h
         obtain ⟨rfl, rfl, rfl⟩ := h
         simp)

/-- `slice(-n)` of a list that is no longer than `n` is the whole list. -/
lemma lastN_all {β : Type} {n : ℕ} {l : List β} (h : l.length ≤ n) : lastN n l = l := by
  simp [lastN, Nat.sub_eq_zero_of_le h]

/-- The mean of `n` copies of `x` is `x`. -/
lemma listMean_replicate (n : ℕ) (x : ℝ) (hn : n ≠ 0) :
    listMean (List.replicate n x) = x := by
  simp only [listMean, List.sum_replicate, List.length_replicate, nsmul_eq_mul]
  rw [mul_comm, mul_div_assoc, div_self (by exact_mod_cast hn), mul_one]

/-- The standard deviation of `n` copies of `x` is `0`. -/
lemma listStd_replicate (n : ℕ) (x : ℝ) (hn : n ≠ 0) :
    listStd (List.replicate n x) = 0 := by
  unfold listStd
  rw [listMean_replicate n x hn]
  simp

/-- Evaluation of the classifier on ten samples of magnitude `1.2` (zero
spread, far from the gravity baseline), empty speed window, counter `31`:
the sleeping rule fires with confidence `min 90 (60 + 31/120·30) = 67.75`
and the counter stays `31`. -/
lemma classify_sleeping_eval :
    classifyActivity (List.replicate 10 (1.2 : ℝ)) [] 10 31
      = some (ActivityKind.sleeping, 271 / 4, 31) := by
  have hL : lastN 30 (List.replicate 10 (1.2 : ℝ)) = List.replicate 10 (1.2 : ℝ) :=
    lastN_all (by simp)
  have hLnil : lastN 10 ([] : List ℝ) = [] := lastN_all (by simp)
  have hm : listMean (List.replicate 10 (1.2 : ℝ)) = 1.2 :=
    listMean_replicate 10 1.2 (by norm_num)
  have hs : listStd (List.replicate 10 (1.2 : ℝ)) = 0 :=
    listStd_replicate 10 1.2 (by norm_num)
  have habs : |(1.2 : ℝ) - 1| = 0.2 := by
    rw [show (1.2 : ℝ) - 1 = 0.2 by norm_num]
    exact abs_of_pos (by norm_num)
  simp only [classifyActivity, hL, hLnil, hm, hs, habs]
  norm_num [min_def]

/-- Counterexample for C7 as stated: on a window that fires the sleeping
rule the counter is *not* incremented — it stays at `31`. -/
theorem c7_sleeping_keeps_counter :
    classifyActivity (List.replicate 10 (1.2 : ℝ)) [] 10 31
        = some (ActivityKind.sleeping, 271 / 4, 31) ∧ (31 : ℤ) ≠ 31 + 1 :=
  ⟨classify_sleeping_eval, by norm_num⟩

/-- Evaluation of the classifier on ten all-zero acceleration samples with
counter `0`: the low-confidence stationary fallback fires and increments
the counter. -/
lemma classify_stationary55_eval :
    classifyActivity (List.replicate 10 (0 : ℝ)) [] 0 0
      = some (ActivityKind.stationary, 55, 1) := by
  have hL : lastN 30 (List.replicate 10 (0 : ℝ)) = List.replicate 10 (0 : ℝ) :=
    lastN_all (by simp)
  have hLnil : lastN 10 ([] : List ℝ) = [] := lastN_all (by simp)
  have hm : listMean (List.replicate 10 (0 : ℝ)) = 0 :=
    listMean_replicate 10 0 (by norm_num)
  have hs : listStd (List.replicate 10 (0 : ℝ)) = 0 :=
    listStd_replicate 10 0 (by norm_num)
  have habs : |(0 : ℝ) - 1| = 1 := by
    rw [show (0 : ℝ) - 1 = -1 by norm_num, abs_neg, abs_one]
  simp only [classifyActivity, hL, hLnil, hm, hs, habs]
  norm_num [min_def]

/-- Witness for C7's amended theorem: at the all-zero window the emitted
label is `stationary` and the theorem yields the incremented counter. -/
theorem classifyActivity_inactivity_witness :
    classifyActivity (List.replicate 10 (0 : ℝ)) [] 0 0
        = some (ActivityKind.stationary, 55, 1) ∧ (1 : ℤ) = 0 + 1 :=
  ⟨classify_stationary55_eval,
    (classifyActivity_inactivity (List.replicate 10 (0 : ℝ)) [] 0 0
        ActivityKind.stationary 55 1 classify_stationary55_eval).1 rfl⟩

/-- Evaluation of the classifier on the spec's stationary example. -/
lemma classify_c9_eval :
    classifyActivity c9Accel c9Speed 10 0 = some (ActivityKind.stationary, 92, 1) := by
  have hL : lastN 30 c9Accel = c9Accel := lastN_all (by simp [c9Accel])
  have hLs : lastN 10 c9Speed = c9Speed := lastN_all (by simp [c9Speed])
  have hm : listMean c9Accel = 1.05 := by norm_num [listMean, c9Accel]
  have hs : listStd c9Accel = 0.02 := by
    have h : ((c9Accel.map fun v => (v - listMean c9Accel) ^ 2).sum / c9Accel.length)
        = (0.02 : ℝ) ^ 2 := by
      rw [hm]
      norm_num [c9Accel]
    rw [listStd, h, Real.sqrt_sq (by norm_num)]
  have hms : listMean c9Speed = 0.1 :=
    listMean_replicate 10 0.1 (by norm_num)
  have habs : |(1.05 : ℝ) - 1| = 0.05 := by
    rw [show (1.05 : ℝ) - 1 = 0.05 by norm_num]
    exact abs_of_pos (by norm_num)
  simp only [classifyActivity, hL, hLs, hm, hs, hms, habs]
  norm_num [min_def, c9Speed, c9Accel]

/-- C9 (amended): on a ten-sample window with `accelStd = 0.02`,
`speedMean = 0.1` and `deviationFromGravity = 0.05`, the classifier emits
`stationary` with confidence `min 95 (80 + (1 − 0.02·10)·15) = 92`, strictly
below the rule's cap of `95` (the cap is attained only at `accelStd = 0`). -/
theorem classifyActivity_stationary_conf92 :
    classifyActivity c9Accel c9Speed 10 0 = some (ActivityKind.stationary, 92, 1) ∧
    (92 : ℝ) < 95 :=
  ⟨classify_c9_eval, by norm_num⟩

/-- Counterexample for C9 as stated: at that window the emitted confidence
is not `95` — the classification differs from the capped one the claim
describes. -/
theorem c9_confidence_not_capped :
    classifyActivity c9Accel c9Speed 10 0 ≠ some (ActivityKind.stationary, 95, 1) := by
  rw [classify_c9_eval]
  simp only [ne_eq, Option.some.injEq, Prod.mk.injEq, true_and]
  intro hc
  norm_num at hc

/-- C10: whenever the conversation classifier emits a state, that state is
`conversation` exactly when the window mean is `≥ 45`; in particular for a
mean in `[30, 45)` the output is always `talking`, so the
`peakRate ≥ 0.35 ∧ std > 12` route to `conversation` never decides the
outcome. -/
theorem detectConversation_spec (audio : List ℝ) (s : ConversationState)
    (h : detectConversation audio = some s) :
    (s = ConversationState.conversation ↔ 45 ≤ listMean (lastN 50 audio)) ∧
    (30 ≤ listMean (lastN 50 audio) → listMean (lastN 50 audio) < 45 →
      s = ConversationState.talking) := by
  simp only [detectConversation] at h
  split_ifs at h with hlen h1 h2 hpk h3 h4
  · -- mean < 12: silent
    simp only [Option.some.injEq] at h
    subst h
    exact ⟨⟨fun hs => by simp at hs, fun h45 => by exfalso; linarith⟩,
      fun hm1 hm2 => by exfalso; linarith⟩
  · -- 12 ≤ mean < 30, low peak rate: silent
    simp only [Option.some.injEq] at h
    subst h
    exact ⟨⟨fun hs => by simp at hs, fun h45 => by exfalso; linarith [h2.2]⟩,
      fun hm1 hm2 => by exfalso; linarith [h2.2]⟩
  · -- 12 ≤ mean < 30, high peak rate: talking
    simp only [Option.some.injEq] at h
    subst h
    exact ⟨⟨fun hs => by simp at hs, fun h45 => by exfalso; linarith [h2.2]⟩,
      fun hm1 hm2 => rfl⟩
  · -- 30 ≤ mean < 45: talking
    simp only [Option.some.injEq] at h
    subst h
    exact ⟨⟨fun hs => by simp at hs, fun h45 => by exfalso; linarith [h3.2]⟩,
      fun hm1 hm2 => rfl⟩
  · -- the conversation branch: it fires only when 45 ≤ mean
    simp only [Option.some.injEq] at h
    subst h
    have h12 : 12 ≤ listMean (lastN 50 audio) := not_lt.mp h1
    have h30 : 30 ≤ listMean (lastN 50 audio) := not_lt.mp fun hlt => h2 ⟨h12, hlt⟩
    have h45 : 45 ≤ listMean (lastN 50 audio) := not_lt.mp fun hlt => h3 ⟨h30, hlt⟩
    exact ⟨⟨fun _ => h45, fun _ => rfl⟩, fun hm1 hm2 => by exfalso; linarith⟩
  · -- the final `talking` fallback is unreachable
    exfalso
    have h12 : 12 ≤ listMean (lastN 50 audio) := not_lt.mp h1
    have h30 : 30 ≤ listMean (lastN 50 audio) := not_lt.mp fun hlt => h2 ⟨h12, hlt⟩
    have h45 : 45 ≤ listMean (lastN 50 audio) := not_lt.mp fun hlt => h3 ⟨h30, hlt⟩
    exact h4 (Or.inl h45)

/-- Witness for C10: a window of twenty samples at level `50` is classified
as `conversation`, and the theorem recovers `45 ≤ mean` from that. -/
theorem detectConversation_spec_witness :
    detectConversation (List.replicate 20 (50 : ℝ)) = some ConversationState.conversation ∧
    45 ≤ listMean (lastN 50 (List.replicate 20 (50 : ℝ))) := by
  have hL : lastN 50 (List.replicate 20 (50 : ℝ)) = List.replicate 20 (50 : ℝ) :=
    lastN_all (by simp)
  have hm : listMean (List.replicate 20 (50 : ℝ)) = 50 :=
    listMean_replicate 20 50 (by norm_num)
  have heval : detectConversation (List.replicate 20 (50 : ℝ))
      = some ConversationState.conversation := by
    simp only [detectConversation, hL, hm]
    norm_num
  exact ⟨heval, ((detectConversation_spec _ _ heval).1).mp rfl⟩

/-- `roundTo1` evaluated on an interval that pins the rounded value. -/
lemma roundTo1_eq (x : ℝ) (n : ℤ) (h1 : (n : ℝ) - 1 / 2 ≤ 10 * x)
    (h2 : 10 * x < (n : ℝ) + 1 / 2) : roundTo1 x = (n : ℝ) / 10 := by
  unfold roundTo1
  have hr : round (10 * x) = n := by
    rw [round_eq]
    refine Int.floor_eq_iff.mpr ⟨by push_cast; linarith, by push_cast; linarith⟩
  rw [hr]

/-- Rounding to one decimal moves a value by at most `0.05`. -/
lemma abs_roundTo1_sub_le (x : ℝ) : |roundTo1 x - x| ≤ 1 / 20 := by
  unfold roundTo1
  have h : |10 * x - (round (10 * x) : ℝ)| ≤ 1 / 2 := abs_sub_round (10 * x)
  rw [abs_sub_comm] at h
  rw [show ((round (10 * x) : ℤ) : ℝ) / 10 - x = ((round (10 * x) : ℤ) - 10 * x) / 10 by ring,
    abs_div, abs_of_pos (show (0 : ℝ) < 10 by norm_num)]
  linarith

/-- `clamp` is the identity inside its bounds. -/
lemma clamp_eq (value lo hi : ℝ) (h1 : lo ≤ value) (h2 : value ≤ hi) :
    clamp value lo hi = value := by
  unfold clamp
  rw [max_eq_left h1, min_eq_left h2]

/-- Taylor bound instance: `sin 0.175`. -/
lemma sin_0175_bounds : (0.1740579 : ℝ) ≤ Real.sin 0.175 ∧ Real.sin 0.175 ≤ 0.1741557 := by
  have h := Real.sin_bound (show |(0.175 : ℝ)| ≤ 1 by rw [abs_of_pos] <;> norm_num)
  rw [abs_of_pos (show (0 : ℝ) < 0.175 by norm_num)] at h
  have h2 := abs_le.mp h
  norm_num at h2
  constructor <;> linarith [h2.1, h2.2]

/-- Taylor bound instance: `cos 0.175`. -/
lemma cos_0175_bounds : (0.9846386 : ℝ) ≤ Real.cos 0.175 ∧ Real.cos 0.175 ≤ 0.9847364 := by
  have h := Real.cos_bound (show |(0.175 : ℝ)| ≤ 1 by rw [abs_of_pos] <;> norm_num)
  rw [abs_of_pos (show (0 : ℝ) < 0.175 by norm_num)] at h
  have h2 := abs_le.mp h
  norm_num at h2
  constructor <;> linarith [h2.1, h2.2]

/-- `sin 0.35` by double angle from `0.175`. -/
lemma sin_035_bounds : (0.3427682 : ℝ) ≤ Real.sin 0.35 ∧ Real.sin 0.35 ≤ 0.3429950 := by
  have hid : Real.sin 0.35 = 2 * Real.sin 0.175 * Real.cos 0.175 := by
    rw [show (0.35 : ℝ) = 2 * 0.175 by norm_num, Real.sin_two_mul]
  have hs := sin_0175_bounds
  have hc := cos_0175_bounds
  rw [hid]
  constructor <;> nlinarith [hs.1, hs.2, hc.1, hc.2]

/-- `cos 0.35` via `1 − 2·sin² 0.175`. -/
lemma cos_035_bounds : (0.9393395 : ℝ) ≤ Real.cos 0.35 ∧ Real.cos 0.35 ≤ 0.9394078 := by
  have hpy := Real.sin_sq_add_cos_sq (0.175 : ℝ)
  have hid : Real.cos 0.35 = 2 * Real.cos 0.175 ^ 2 - 1 := by
    rw [show (0.35 : ℝ) = 2 * 0.175 by norm_num, Real.cos_two_mul]
  have hs := sin_0175_bounds
  have hid2 : Real.cos 0.35 = 1 - 2 * Real.sin 0.175 ^ 2 := by
    rw [hid]
    nlinarith [hpy]
  rw [hid2]
  constructor <;> nlinarith [hs.1, hs.2]

/-- `sin 0.7` by double angle from `0.35`. -/
lemma sin_07_bounds : (0.6439514 : ℝ) ≤ Real.sin 0.7 ∧ Real.sin 0.7 ≤ 0.6444244 := by
  have hid : Real.sin 0.7 = 2 * Real.sin 0.35 * Real.cos 0.35 := by
    rw [show (0.7 : ℝ) = 2 * 0.35 by norm_num, Real.sin_two_mul]
  have hs := sin_035_bounds
  have hc := cos_035_bounds
  rw [hid]
  constructor <;> nlinarith [hs.1, hs.2, hc.1, hc.2]

/-- `cos 0.7` via `1 − 2·sin² 0.35`. -/
lemma cos_07_bounds : (0.7647088 : ℝ) ≤ Real.cos 0.7 ∧ Real.cos 0.7 ≤ 0.7650200 := by
  have hpy := Real.sin_sq_add_cos_sq (0.35 : ℝ)
  have hid : Real.cos 0.7 = 2 * Real.cos 0.35 ^ 2 - 1 := by
    rw [show (0.7 : ℝ) = 2 * 0.35 by norm_num, Real.cos_two_mul]
  have hs := sin_035_bounds
  have hid2 : Real.cos 0.7 = 1 - 2 * Real.sin 0.35 ^ 2 := by
    rw [hid]
    nlinarith [hpy]
  rw [hid2]
  constructor <;> nlinarith [hs.1, hs.2]

/-- `sin 1.4` (the social variation of day 0) by double angle from `0.7`. -/
lemma sin_14_bounds : (0.9848 : ℝ) ≤ Real.sin 1.4 ∧ Real.sin 1.4 ≤ 0.986 := by
  have hid : Real.sin 1.4 = 2 * Real.sin 0.7 * Real.cos 0.7 := by
    rw [show (1.4 : ℝ) = 2 * 0.7 by norm_num, Real.sin_two_mul]
  have hs := sin_07_bounds
  have hc := cos_07_bounds
  rw [hid]
  constructor <;> nlinarith [hs.1, hs.2, hc.1, hc.2]

/-- Taylor bound instance: `sin 0.3`. -/
lemma sin_03_bounds : (0.2950781 : ℝ) ≤ Real.sin 0.3 ∧ Real.sin 0.3 ≤ 0.2959219 := by
  have h := Real.sin_bound (show |(0.3 : ℝ)| ≤ 1 by rw [abs_of_pos] <;> norm_num)
  rw [abs_of_pos (show (0 : ℝ) < 0.3 by norm_num)] at h
  have h2 := abs_le.mp h
  norm_num at h2
  constructor <;> linarith [h2.1, h2.2]

/-- Taylor bound instance: `cos 0.3`. -/
lemma cos_03_bounds : (0.9545781 : ℝ) ≤ Real.cos 0.3 ∧ Real.cos 0.3 ≤ 0.9554219 := by
  have h := Real.cos_bound (show |(0.3 : ℝ)| ≤ 1 by rw [abs_of_pos] <;> norm_num)
  rw [abs_of_pos (show (0 : ℝ) < 0.3 by norm_num)] at h
  have h2 := abs_le.mp h
  norm_num at h2
  constructor <;> linarith [h2.1, h2.2]

/-- `sin 0.6` (the sleep variation of day 0) by double angle from `0.3`. -/
lemma sin_06_bounds : (0.5633 : ℝ) ≤ Real.sin 0.6 ∧ Real.sin 0.6 ≤ 0.5655 := by
  have hid : Real.sin 0.6 = 2 * Real.sin 0.3 * Real.cos 0.3 := by
    rw [show (0.6 : ℝ) = 2 * 0.3 by norm_num, Real.sin_two_mul]
  have hs := sin_03_bounds
  have hc := cos_03_bounds
  rw [hid]
  constructor <;> nlinarith [hs.1, hs.2, hc.1, hc.2]

/-- Taylor bound instance: `cos 0.2`. -/
lemma cos_02_bounds : (0.9799166 : ℝ) ≤ Real.cos 0.2 ∧ Real.cos 0.2 ≤ 0.9800834 := by
  have h := Real.cos_bound (show |(0.2 : ℝ)| ≤ 1 by rw [abs_of_pos] <;> norm_num)
  rw [abs_of_pos (show (0 : ℝ) < 0.2 by norm_num)] at h
  have h2 := abs_le.mp h
  norm_num at h2
  constructor <;> linarith [h2.1, h2.2]

/-- `cos 0.4` (the activity variation of day 0) by double angle from
`0.2`. -/
lemma cos_04_bounds : (0.9204 : ℝ) ≤ Real.cos 0.4 ∧ Real.cos 0.4 ≤ 0.9212 := by
  have hid : Real.cos 0.4 = 2 * Real.cos 0.2 ^ 2 - 1 := by
    rw [show (0.4 : ℝ) = 2 * 0.2 by norm_num, Real.cos_two_mul]
  have hc := cos_02_bounds
  rw [hid]
  constructor <;> nlinarith [hc.1, hc.2]

/-- The generated 10-day list for `today = 0` is already newest-first. -/
lemma sample_list_sorted : List.Sorted dateGe ((List.range 10).map (sampleDailyScore 0)) := by
  decide

/-- The latest generated sample entry (for `today = 0`, `days = 10`) is day
`i = 0`, and `overall` is built from its fields. -/
lemma sample_latest :
    (generateSampleWellbeingData 0 10).2.sleep = (sampleDailyScore 0 0).sleep ∧
    (generateSampleWellbeingData 0 10).2.physicalActivity
      = (sampleDailyScore 0 0).physicalActivity ∧
    (generateSampleWellbeingData 0 10).2.socialInteraction
      = (sampleDailyScore 0 0).socialInteraction ∧
    (generateSampleWellbeingData 0 10).2.overall
      = roundTo1 (calculateOverallScore (sampleDailyScore 0 0).sleep
          (sampleDailyScore 0 0).physicalActivity (sampleDailyScore 0 0).socialInteraction) := by
  have hsort_eq : List.insertionSort dateGe ((List.range 10).map (sampleDailyScore 0))
      = (List.range 10).map (sampleDailyScore 0) := sample_list_sorted.insertionSort_eq
  refine ⟨?_, ?_, ?_, ?_⟩ <;>
    · simp only [generateSampleWellbeingData, hsort_eq]
      rfl

/-- Day 0's sleep dimension: `round1(clamp(85 + 8·sin 0.6)) = 89.5`. -/
lemma sample_sleep_val : (sampleDailyScore 0 0).sleep = 895 / 10 := by
  have hs := sin_06_bounds
  simp only [sampleDailyScore, Nat.cast_zero, zero_add, one_mul]
  rw [clamp_eq _ _ _ (by linarith [hs.1]) (by linarith [hs.2]),
    roundTo1_eq _ 895 (by push_cast; linarith [hs.1]) (by push_cast; linarith [hs.2])]
  norm_num

/-- Day 0's activity dimension: `round1(clamp(78 + 10·cos 0.4)) = 87.2`. -/
lemma sample_pa_val : (sampleDailyScore 0 0).physicalActivity = 872 / 10 := by
  have hc := cos_04_bounds
  simp only [sampleDailyScore, Nat.cast_zero, zero_add, one_mul]
  rw [clamp_eq _ _ _ (by linarith [hc.1]) (by linarith [hc.2]),
    roundTo1_eq _ 872 (by push_cast; linarith [hc.1]) (by push_cast; linarith [hc.2])]
  norm_num

/-- Day 0's social dimension: `round1(clamp(72 + 12·sin 1.4)) = 83.8`. -/
lemma sample_si_val : (sampleDailyScore 0 0).socialInteraction = 838 / 10 := by
  have hs := sin_14_bounds
  simp only [sampleDailyScore, Nat.cast_zero, zero_add]
  rw [show ((2 : ℝ) * 0.7) = 1.4 by norm_num]
  rw [clamp_eq _ _ _ (by linarith [hs.1]) (by linarith [hs.2]),
    roundTo1_eq _ 838 (by push_cast; linarith [hs.1]) (by push_cast; linarith [hs.2])]
  norm_num

/-- C1 (amended): every `WellbeingScore` produced by `updateScores` has
`overall` equal to the exact arithmetic mean of its three (final) dimension
fields — it is recomputed from them on every update.  The score produced by
`generateSampleWellbeingData`, by contrast, stores the mean *rounded to one
decimal place* (`toFixed(1)`), which stays within `0.05` of the exact mean
but need not equal it. -/
theorem overall_mean_policy :
    (∀ (cs : Option (WellbeingScore ℚ)) (daily : List (DailyWellbeingScores ℚ)) (flag : Bool)
        (today now : ℤ) (m : WellbeingMetrics),
      (updateScores cs daily flag today now m).1.overall
        = calculateOverallScore (updateScores cs daily flag today now m).1.sleep
            (updateScores cs daily flag today now m).1.physicalActivity
            (updateScores cs daily flag today now m).1.socialInteraction) ∧
    (∀ (today : ℤ) (days : ℕ),
      (generateSampleWellbeingData today days).2.overall
        = roundTo1 (calculateOverallScore (generateSampleWellbeingData today days).2.sleep
            (generateSampleWellbeingData today days).2.physicalActivity
            (generateSampleWellbeingData today days).2.socialInteraction) ∧
      |(generateSampleWellbeingData today days).2.overall
          - calculateOverallScore (generateSampleWellbeingData today days).2.sleep
              (generateSampleWellbeingData today days).2.physicalActivity
              (generateSampleWellbeingData today days).2.socialInteraction| ≤ 1 / 20) := by
  refine ⟨updateScores_overall_eq, fun today days => ⟨rfl, ?_⟩⟩
  exact abs_roundTo1_sub_le _

/-- Counterexample for C1 as stated: in the sample data for `today = 0`
(the score fields do not depend on the date) with the default 10 days, the
current score is `(89.5, 87.2, 83.8)` with `overall = 86.8`, while the
exact mean of the three dimensions is `260.5/3 = 86.8333…` — the stored
`overall` does not equal the arithmetic mean. -/
theorem c1_sample_overall_not_mean :
    (generateSampleWellbeingData 0 10).2.overall
      ≠ calculateOverallScore (generateSampleWellbeingData 0 10).2.sleep
          (generateSampleWellbeingData 0 10).2.physicalActivity
          (generateSampleWellbeingData 0 10).2.socialInteraction := by
  have hl := sample_latest
  rw [hl.1, hl.2.1, hl.2.2.1, hl.2.2.2, sample_sleep_val, sample_pa_val, sample_si_val]
  simp only [calculateOverallScore]
  rw [roundTo1_eq _ 868 (by push_cast; norm_num) (by push_cast; norm_num)]
  norm_num

end HealthApp
